import Mathlib

/-!
# Verification of `joystick` (graph frame and loop helpers)

Shallow embedding of `src/joystick/graph.py` (class `Graph`) and, modelled
from the specification, of the two helpers that `src/joystick/example.py`
calls but whose defining module is not among the provided sources
(`joystick.core.add_datapoint` and the infinite-loop decorator).

Conventions of the embedding:
* Python floats are modelled as exact rationals `ℚ`.
* `int(value)` is modelled by `pyInt` (truncation toward zero).
* numpy arrays of data points are modelled as `List ℚ`.
* The mutable `Graph` object is a record; each method returns the new state.
* A Python method that returns `None` when the frame is invisible is
  modelled with `Option`.
-/

/-- Python `int(q)` for a float/rational `q`: truncation toward zero. -/
def pyInt (q : ℚ) : ℤ := if 0 ≤ q then ⌊q⌋ else -⌊-q⌋

/-- The fixed attribute `self._minmini = 1e-2` set in `Graph.__init__`. -/
def minmini : ℚ := 1 / 100

/-- State of a `joystick.graph.Graph` frame.  `visible` comes from the
`Frame` base class; `xlim`/`ylim` are the matplotlib axes limits
(`ax.get_xlim()`, `ax.get_ylim()`); `xdata`/`ydata` are the data of the
single plotted line `ax.lines[0]`. -/
structure Graph where
  visible : Bool
  xnptsmax : ℤ
  xnpts : ℤ
  xylim : Option ℚ × Option ℚ × Option ℚ × Option ℚ
  axmargin : ℚ × ℚ
  xlim : ℚ × ℚ
  ylim : ℚ × ℚ
  xdata : List ℚ
  ydata : List ℚ
  deriving DecidableEq, Repr

/-- The `xnptsmax` property setter (graph.py lines 166-172):
`if value < 1: print(warning); return` — otherwise `self._xnptsmax = int(value)`. -/
def Graph.set_xnptsmax (g : Graph) (value : ℚ) : Graph :=
  if value < 1 then g else { g with xnptsmax := pyInt value }

/-- The `xnpts` property setter (graph.py lines 182-188):
`if not 1 < value <= self.xnptsmax: print(warning); return` —
otherwise `self._xnpts = int(value)`. -/
def Graph.set_xnpts (g : Graph) (value : ℚ) : Graph :=
  if 1 < value ∧ value ≤ (g.xnptsmax : ℚ) then { g with xnpts := pyInt value } else g

/-- One element of numpy `allclose` with its default tolerances
(`rtol = 1e-5`, `atol = 1e-8`): `|a - b| ≤ atol + rtol * |b|`. -/
def closeQ (a b : ℚ) : Prop := |a - b| ≤ 1 / 100000000 + (1 / 100000) * |b|

instance (a b : ℚ) : Decidable (closeQ a b) := by unfold closeQ; infer_instance

/-- `np.allclose` on the two-element arrays compared in `set_xylim`. -/
def allclose2 (a b : ℚ × ℚ) : Prop := closeQ a.1 b.1 ∧ closeQ a.2 b.2

instance (a b : ℚ × ℚ) : Decidable (allclose2 a b) := by unfold allclose2; infer_instance

/-- Python slicing `l[-n:]` for an integer `n` (as in `x[-self.xnpts:]`):
for `n > 0` the last `n` elements (or all of `l` when shorter), for
`n ≤ 0` the slice `l[(-n):]`. -/
def pySliceLast (n : ℤ) (l : List ℚ) : List ℚ :=
  if 0 < n then l.drop (l.length - n.toNat) else l.drop (-n).toNat

/-- `Graph.set_xydata` (graph.py lines 190-198): when visible, the plotted
line's data become `x[-xnpts:]` and `y[-xnpts:]`; otherwise nothing happens. -/
def Graph.set_xydata (g : Graph) (x y : List ℚ) : Graph :=
  if g.visible then
    { g with xdata := pySliceLast g.xnpts x, ydata := pySliceLast g.xnpts y }
  else g

/-- `Graph.get_xydata` (graph.py lines 200-205): the line's data when
visible, `None` otherwise. -/
def Graph.get_xydata (g : Graph) : Option (List ℚ × List ℚ) :=
  if g.visible then some (g.xdata, g.ydata) else none

/-- `Graph.get_xylim` (graph.py lines 226-231): `ax.get_xlim() + ax.get_ylim()`
when visible, `None` otherwise. -/
def Graph.get_xylim (g : Graph) : Option (ℚ × ℚ × ℚ × ℚ) :=
  if g.visible then some (g.xlim.1, g.xlim.2, g.ylim.1, g.ylim.2) else none

/-- One axis of `set_xylim` (graph.py lines 215-224): a `None` bound keeps
the current one (`xmin = xmin_o if xmin is None else float(xmin)`), and the
axis is only written when the new pair fails `np.allclose` against the
current pair.  `set_xylim` reads both current pairs before either write and
the two writes touch disjoint state, so this per-axis decomposition is exact. -/
def updPair (cur : ℚ × ℚ) (lo hi : Option ℚ) : ℚ × ℚ :=
  if allclose2 (lo.getD cur.1, hi.getD cur.2) cur then cur
  else (lo.getD cur.1, hi.getD cur.2)

/-- `Graph.set_xylim` (graph.py lines 207-224): no-op when invisible,
otherwise each axis pair is updated by `updPair`. -/
def Graph.set_xylim (g : Graph) (xylim : Option ℚ × Option ℚ × Option ℚ × Option ℚ) :
    Graph :=
  if g.visible then
    { g with xlim := updPair g.xlim xylim.1 xylim.2.1,
             ylim := updPair g.ylim xylim.2.2.1 xylim.2.2.2 }
  else g

/-- `x.min()` of a numpy array modelled as a list (meaningful when the list
is nonempty; `_pre_update` only reaches it with nonempty line data). -/
def npMin (l : List ℚ) : ℚ := l.foldl min (l.headD 0)

/-- `x.max()` of a numpy array modelled as a list. -/
def npMax (l : List ℚ) : ℚ := l.foldl max (l.headD 0)

/-- The four limits computed by `Graph._pre_update` (graph.py lines 233-255)
before its final call to `set_xylim`.  `none` is returned when `get_xydata`
returns `None` (invisible frame: `x, y = None` raises) or a data vector is
empty (`x.min()` raises). -/
def Graph.pre_update_lims (g : Graph) : Option (ℚ × ℚ × ℚ × ℚ) :=
  match g.get_xydata with
  | none => none
  | some (x, y) =>
    if x = [] ∨ y = [] then none
    else
      let xmin_f := g.xylim.1.getD (npMin x)
      let xmax_f := g.xylim.2.1.getD (max (npMax x) (xmin_f + minmini))
      let ymin_f := g.xylim.2.2.1.getD (npMin y)
      let ymax_f := g.xylim.2.2.2.getD (max (npMax y) (ymin_f + minmini))
      let dx := (g.axmargin.1 - 1) * (xmax_f - xmin_f) * (1 / 2)
      let dy := (g.axmargin.2 - 1) * (ymax_f - ymin_f) * (1 / 2)
      let xmin_m := if g.axmargin.1 ≠ 1 ∧ g.xylim.1 = none then xmin_f - dx else xmin_f
      let xmax_m := if g.axmargin.1 ≠ 1 ∧ g.xylim.2.1 = none then xmax_f + dx else xmax_f
      let ymin_m := if g.axmargin.2 ≠ 1 ∧ g.xylim.2.2.1 = none then ymin_f - dy else ymin_f
      let ymax_m := if g.axmargin.2 ≠ 1 ∧ g.xylim.2.2.2 = none then ymax_f + dy else ymax_f
      some (xmin_m, xmax_m, ymin_m, ymax_m)

/-- `Graph._pre_update` (graph.py lines 233-256): computes the four limits
and passes them to `set_xylim`. -/
def Graph.pre_update (g : Graph) : Option Graph :=
  g.pre_update_lims.map fun L => g.set_xylim (some L.1, some L.2.1, some L.2.2.1, some L.2.2.2)

/-- Modelled from the spec: `joystick.core.add_datapoint` is not among the
provided sources (only its caller `example.py` is).  The spec describes it as
"a fixed-length ring-buffer append" in which "older data points will be
deleted" past the maximum: the new datapoint is appended and only the
`xnptsmax` most recent entries are kept. -/
def add_datapoint (a : List ℚ) (d : ℚ) (xnptsmax : ℕ) : List ℚ :=
  (a ++ [d]).drop ((a ++ [d]).length - xnptsmax)

/-- Modelled from the spec: the infinite-loop decorator
(`jk.deco_infinite_loop`) is not among the provided sources (only its use in
`example.py` is).  The spec describes it as a sleep-loop on a background
thread that repeatedly invokes the decorated method, separated by the
configured wait time, until a boolean stop flag is set.  Time is abstracted
to discrete ticks one wait-time apart: `stop k` is the stop flag read at
tick `k`, and `loopInvoked stop k` says whether the loop body invokes the
method at tick `k` (the flag is checked before every invocation, and the
loop exits for good the first time it is found set). -/
def loopInvoked (stop : ℕ → Bool) : ℕ → Bool
  | 0 => !stop 0
  | k + 1 => loopInvoked stop k && !stop (k + 1)

/-- A concrete visible graph used by witnesses: `xnptsmax = 50`, `xnpts = 30`,
fixed lower limits and automatic upper limits, `axmargin = (1.1, 1.1)`. -/
def gW : Graph :=
  ⟨true, 50, 30, (some 0, none, some 0, none), (11/10, 11/10), (0, 10), (0, 1), [1, 3], [2, 5]⟩

/-- A concrete invisible graph used by witnesses. -/
def gI : Graph :=
  ⟨false, 50, 30, (none, none, none, none), (1, 1), (0, 10), (0, 1), [1], [2]⟩

/-- A concrete visible graph with all four limits fixed, used by witnesses. -/
def gF : Graph :=
  ⟨true, 50, 30, (some 2, some 7, some 3, some 8), (11/10, 11/10), (0, 10), (0, 1), [1, 3], [2, 5]⟩

/-- A concrete stop-flag schedule used by witnesses: set from tick 3 on. -/
def stopW : ℕ → Bool := fun k => decide (3 ≤ k)

theorem closeQ_refl (a : ℚ) : closeQ a a := by
  unfold closeQ
  rw [sub_self, abs_zero]
  positivity

theorem allclose2_refl (p : ℚ × ℚ) : allclose2 p p := ⟨closeQ_refl _, closeQ_refl _⟩

theorem updPair_none_none (cur : ℚ × ℚ) : updPair cur none none = cur := by
  unfold updPair
  simp only [Option.getD_none, Prod.mk.eta]
  rw [if_pos (allclose2_refl cur)]

theorem updPair_idem (cur : ℚ × ℚ) (lo hi : Option ℚ) :
    updPair (updPair cur lo hi) lo hi = updPair cur lo hi := by
  unfold updPair
  by_cases h : allclose2 (lo.getD cur.1, hi.getD cur.2) cur
  · rw [if_pos h, if_pos h]
  · rw [if_neg h]
    have h1 : lo.getD (lo.getD cur.1) = lo.getD cur.1 := by cases lo <;> rfl
    have h2 : hi.getD (hi.getD cur.2) = hi.getD cur.2 := by cases hi <;> rfl
    simp only [h1, h2]
    rw [if_pos (allclose2_refl _)]

theorem pySliceLast_pos (n : ℤ) (l : List ℚ) (h : 0 < n) :
    pySliceLast n l = (l.reverse.take n.toNat).reverse := by
  unfold pySliceLast
  rw [if_pos h, show l.drop (l.length - n.toNat) = l.rtake n.toNat from rfl,
    List.rtake_eq_reverse_take_reverse]

/-- C1: the `xnpts` setter rejects any value `> xnptsmax` or `≤ 1`, keeping the
stored `xnpts` (and the whole state) unchanged, and stores `int(v)` whenever
`1 < v ≤ xnptsmax`. -/
theorem xnpts_setter_validates (g : Graph) (v : ℚ) :
    (v ≤ 1 ∨ (g.xnptsmax : ℚ) < v → g.set_xnpts v = g) ∧
    (1 < v → v ≤ (g.xnptsmax : ℚ) → g.set_xnpts v = { g with xnpts := pyInt v }) := by
  constructor
  · intro h
    unfold Graph.set_xnpts
    rw [if_neg]
    rintro ⟨h1, h2⟩
    rcases h with h | h
    · exact absurd h1 (not_lt.mpr h)
    · exact absurd h2 (not_le.mpr h)
  · intro h1 h2
    unfold Graph.set_xnpts
    rw [if_pos ⟨h1, h2⟩]

/-- Witness for C1 on a concrete graph with `xnptsmax = 50`: the value 100 is
rejected and the value 30 is stored as the integer 30. -/
theorem xnpts_setter_validates_witness :
    gW.set_xnpts 100 = gW ∧ gW.set_xnpts 30 = { gW with xnpts := 30 } := by
  refine ⟨(xnpts_setter_validates gW 100).1 (Or.inr (by norm_num [gW])), ?_⟩
  have h := (xnpts_setter_validates gW 30).2 (by norm_num) (by norm_num [gW])
  rw [h]
  norm_num [pyInt]

/-- C4: assigning any `v < 1` to `xnptsmax` leaves the whole graph state
unchanged (the warning is only printed; no exception, no other field touched). -/
theorem xnptsmax_setter_rejects_below_one (g : Graph) (v : ℚ) (h : v < 1) :
    g.set_xnptsmax v = g := by
  unfold Graph.set_xnptsmax
  rw [if_pos h]

/-- Witness for C4: assigning 0 to `xnptsmax` of a concrete graph is a no-op. -/
theorem xnptsmax_setter_rejects_below_one_witness : gW.set_xnptsmax 0 = gW :=
  xnptsmax_setter_rejects_below_one gW 0 (by norm_num)

/-- C8: the `xnptsmax` setter only rejects values strictly below 1; every
`v ≥ 1` — including the boundary value 1, despite the docstring "Must be > 1" —
is accepted and stored as `int(v)`. -/
theorem xnptsmax_setter_accepts_one (g : Graph) (v : ℚ) (h : 1 ≤ v) :
    g.set_xnptsmax v = { g with xnptsmax := pyInt v } := by
  unfold Graph.set_xnptsmax
  rw [if_neg (not_lt.mpr h)]

/-- Witness for C8: assigning exactly 1 to `xnptsmax` stores 1. -/
theorem xnptsmax_setter_accepts_one_witness :
    gW.set_xnptsmax 1 = { gW with xnptsmax := 1 } := by
  have h := xnptsmax_setter_accepts_one gW 1 (by norm_num)
  rw [h]
  norm_num [pyInt]

/-- C5: on a visible graph, `set_xydata` stores exactly the last `xnpts`
elements of `x` and `y` as the line's data, so the stored array lengths
never exceed the configured `xnpts`. -/
theorem set_xydata_keeps_last_xnpts (g : Graph) (x y : List ℚ)
    (hv : g.visible = true) (hn : 0 < g.xnpts) :
    (g.set_xydata x y).xdata = (x.reverse.take g.xnpts.toNat).reverse ∧
    (g.set_xydata x y).ydata = (y.reverse.take g.xnpts.toNat).reverse ∧
    (g.set_xydata x y).xdata.length ≤ g.xnpts.toNat ∧
    (g.set_xydata x y).ydata.length ≤ g.xnpts.toNat := by
  have hx : (g.set_xydata x y).xdata = (x.reverse.take g.xnpts.toNat).reverse := by
    unfold Graph.set_xydata
    rw [if_pos hv]
    show pySliceLast g.xnpts x = _
    exact pySliceLast_pos _ _ hn
  have hy : (g.set_xydata x y).ydata = (y.reverse.take g.xnpts.toNat).reverse := by
    unfold Graph.set_xydata
    rw [if_pos hv]
    show pySliceLast g.xnpts y = _
    exact pySliceLast_pos _ _ hn
  refine ⟨hx, hy, ?_, ?_⟩
  · rw [hx, List.length_reverse, List.length_take]
    exact min_le_left _ _
  · rw [hy, List.length_reverse, List.length_take]
    exact min_le_left _ _

/-- Witness for C5: a visible graph with `xnpts = 30` stores short vectors
in full, and the stored length is bounded by 30. -/
theorem set_xydata_keeps_last_xnpts_witness :
    (gW.set_xydata [1, 2, 3] [4, 5, 6]).xdata = [1, 2, 3] ∧
    (gW.set_xydata [1, 2, 3] [4, 5, 6]).xdata.length ≤ 30 := by
  obtain ⟨h1, -, h3, -⟩ :=
    set_xydata_keeps_last_xnpts gW [1, 2, 3] [4, 5, 6] rfl (by norm_num [gW])
  exact ⟨by rw [h1]; rfl, h3⟩

/-- C9: on a visible graph, `set_xylim (None, None, None, None)` leaves the
graph unchanged (each `None` is replaced by the current limit and the
`allclose` guard then suppresses both writes), and `set_xylim` is idempotent:
repeating a call with the same argument changes nothing further. -/
theorem set_xylim_none_id_and_idem (g : Graph) (hv : g.visible = true) :
    g.set_xylim (none, none, none, none) = g ∧
    ∀ L, (g.set_xylim L).set_xylim L = g.set_xylim L := by
  constructor
  · unfold Graph.set_xylim
    rw [if_pos hv, updPair_none_none, updPair_none_none]
  · intro L
    unfold Graph.set_xylim
    rw [if_pos hv]
    rw [if_pos (show ({ g with
        xlim := updPair g.xlim L.1 L.2.1,
        ylim := updPair g.ylim L.2.2.1 L.2.2.2 } : Graph).visible = true from hv)]
    simp only [updPair_idem]

/-- Witness for C9: on the concrete visible graph, setting all-`None` limits
is the identity and a repeated `set_xylim` call is absorbed. -/
theorem set_xylim_none_id_and_idem_witness :
    gW.set_xylim (none, none, none, none) = gW ∧
    (gW.set_xylim (some 5, some 6, none, none)).set_xylim (some 5, some 6, none, none) =
      gW.set_xylim (some 5, some 6, none, none) := by
  obtain ⟨h1, h2⟩ := set_xylim_none_id_and_idem gW rfl
  exact ⟨h1, h2 _⟩

/-- C10: on an invisible graph every public data/limit operation is a no-op at
the interface: `set_xydata` and `set_xylim` return the state unchanged, and
`get_xydata` and `get_xylim` return `None` instead of data. -/
theorem invisible_ops_noop (g : Graph) (h : g.visible = false) :
    (∀ x y, g.set_xydata x y = g) ∧ (∀ L, g.set_xylim L = g) ∧
    g.get_xydata = none ∧ g.get_xylim = none := by
  refine ⟨fun x y => ?_, fun L => ?_, ?_, ?_⟩ <;>
    simp [Graph.set_xydata, Graph.set_xylim, Graph.get_xydata, Graph.get_xylim, h]

/-- Witness for C10 on a concrete invisible graph. -/
theorem invisible_ops_noop_witness :
    gI.set_xydata [1] [2] = gI ∧ gI.set_xylim (some 1, none, none, none) = gI ∧
    gI.get_xydata = none ∧ gI.get_xylim = none := by
  obtain ⟨h1, h2, h3, h4⟩ := invisible_ops_noop gI rfl
  exact ⟨h1 [1] [2], h2 _, h3, h4⟩

/-- C3: `add_datapoint` behaves as a fixed-length ring-buffer append: the
datapoint `d` is appended after the existing elements (the result is a
suffix of `a ++ [d]`, all of it when it fits within `xnptsmax`), at most
`xnptsmax` of the most recent datapoints are kept, and the last element of
the result is `d`. -/
theorem add_datapoint_ring_buffer (a : List ℚ) (d : ℚ) (m : ℕ) (hm : 1 ≤ m) :
    add_datapoint a d m <:+ a ++ [d] ∧
    (add_datapoint a d m).length ≤ m ∧
    (add_datapoint a d m).getLast? = some d ∧
    (a.length + 1 ≤ m → add_datapoint a d m = a ++ [d]) := by
  refine ⟨List.drop_suffix _ _, ?_, ?_, ?_⟩
  · unfold add_datapoint
    rw [List.length_drop]
    omega
  · unfold add_datapoint
    rw [List.drop_append_of_le_length (by simp; omega), List.getLast?_concat]
  · intro hfit
    unfold add_datapoint
    rw [Nat.sub_eq_zero_of_le (by simp; omega), List.drop_zero]

/-- Witness for C3: appending 9 to `[6, 7, 8]` with capacity 3 keeps the 3
most recent datapoints. -/
theorem add_datapoint_ring_buffer_witness :
    add_datapoint [6, 7, 8] 9 3 <:+ [6, 7, 8] ++ [9] ∧
    (add_datapoint [6, 7, 8] 9 3).length ≤ 3 ∧
    (add_datapoint [6, 7, 8] 9 3).getLast? = some 9 := by
  obtain ⟨h1, h2, h3, -⟩ := add_datapoint_ring_buffer [6, 7, 8] 9 3 (by norm_num)
  exact ⟨h1, h2, h3⟩

/-- C7: the modelled background loop invokes the decorated method at every
tick as long as the stop flag has never been set, and once the flag is set
at some tick the method is never invoked at that tick or any later one. -/
theorem infinite_loop_runs_until_stop (stop : ℕ → Bool) (k n : ℕ) :
    ((∀ j, j ≤ n → stop j = false) → loopInvoked stop n = true) ∧
    (stop k = true → k ≤ n → loopInvoked stop n = false) := by
  induction n with
  | zero =>
    constructor
    · intro h
      simp [loopInvoked, h 0 (le_refl 0)]
    · intro hs hk
      have hk0 : k = 0 := Nat.le_zero.mp hk
      simp [loopInvoked, ← hk0, hs]
  | succ n ih =>
    constructor
    · intro h
      have h1 := ih.1 fun j hj => h j (Nat.le_succ_of_le hj)
      simp [loopInvoked, h1, h (n + 1) (le_refl _)]
    · intro hs hk
      rcases eq_or_lt_of_le hk with he | hl
      · simp [loopInvoked, ← he, hs]
      · have h1 := ih.2 hs (Nat.lt_succ_iff.mp hl)
        simp [loopInvoked, h1]

/-- Witness for C7 with the flag first set at tick 3: the method still runs
at tick 2 and no longer runs at tick 5. -/
theorem infinite_loop_runs_until_stop_witness :
    loopInvoked stopW 2 = true ∧ loopInvoked stopW 5 = false :=
  ⟨(infinite_loop_runs_until_stop stopW 0 2).1 (by decide),
   (infinite_loop_runs_until_stop stopW 3 5).2 (by decide) (by decide)⟩

theorem pre_update_lims_eq (g : Graph) (hv : g.visible = true)
    (hx : g.xdata ≠ []) (hy : g.ydata ≠ []) :
    g.pre_update_lims = some
      (let xmin_f := g.xylim.1.getD (npMin g.xdata)
       let xmax_f := g.xylim.2.1.getD (max (npMax g.xdata) (xmin_f + minmini))
       let ymin_f := g.xylim.2.2.1.getD (npMin g.ydata)
       let ymax_f := g.xylim.2.2.2.getD (max (npMax g.ydata) (ymin_f + minmini))
       let dx := (g.axmargin.1 - 1) * (xmax_f - xmin_f) * (1 / 2)
       let dy := (g.axmargin.2 - 1) * (ymax_f - ymin_f) * (1 / 2)
       (if g.axmargin.1 ≠ 1 ∧ g.xylim.1 = none then xmin_f - dx else xmin_f,
        if g.axmargin.1 ≠ 1 ∧ g.xylim.2.1 = none then xmax_f + dx else xmax_f,
        if g.axmargin.2 ≠ 1 ∧ g.xylim.2.2.1 = none then ymin_f - dy else ymin_f,
        if g.axmargin.2 ≠ 1 ∧ g.xylim.2.2.2 = none then ymax_f + dy else ymax_f)) := by
  unfold Graph.pre_update_lims Graph.get_xydata
  rw [if_pos hv]
  simp only [if_neg (show ¬(g.xdata = [] ∨ g.ydata = []) by simp [hx, hy])]

/-- C2: `_pre_update` on a visible graph with nonempty data vectors
auto-computes every `None` entry of `xylim` — `xmin_f = min(x)`,
`xmax_f = max(max(x), xmin_f + 0.01)`, `ymin_f = min(y)`,
`ymax_f = max(max(y), ymin_f + 0.01)` — keeps the fixed entries, then for
each axis whose `axmargin` differs from 1 moves every auto-computed (`None`)
side outward by `(axmargin - 1) * (max_f - min_f) / 2`, and passes the four
resulting limits to `set_xylim`. -/
theorem pre_update_autoscale (g : Graph) (hv : g.visible = true)
    (hx : g.xdata ≠ []) (hy : g.ydata ≠ []) :
    ∃ xminf xmaxf yminf ymaxf : ℚ,
      (g.xylim.1 = none → xminf = npMin g.xdata) ∧
      (g.xylim.1 ≠ none → some xminf = g.xylim.1) ∧
      (g.xylim.2.1 = none → xmaxf = max (npMax g.xdata) (xminf + 1 / 100)) ∧
      (g.xylim.2.1 ≠ none → some xmaxf = g.xylim.2.1) ∧
      (g.xylim.2.2.1 = none → yminf = npMin g.ydata) ∧
      (g.xylim.2.2.1 ≠ none → some yminf = g.xylim.2.2.1) ∧
      (g.xylim.2.2.2 = none → ymaxf = max (npMax g.ydata) (yminf + 1 / 100)) ∧
      (g.xylim.2.2.2 ≠ none → some ymaxf = g.xylim.2.2.2) ∧
      g.pre_update = some (g.set_xylim
        (some (if g.axmargin.1 ≠ 1 ∧ g.xylim.1 = none
               then xminf - (g.axmargin.1 - 1) * (xmaxf - xminf) / 2 else xminf),
         some (if g.axmargin.1 ≠ 1 ∧ g.xylim.2.1 = none
               then xmaxf + (g.axmargin.1 - 1) * (xmaxf - xminf) / 2 else xmaxf),
         some (if g.axmargin.2 ≠ 1 ∧ g.xylim.2.2.1 = none
               then yminf - (g.axmargin.2 - 1) * (ymaxf - yminf) / 2 else yminf),
         some (if g.axmargin.2 ≠ 1 ∧ g.xylim.2.2.2 = none
               then ymaxf + (g.axmargin.2 - 1) * (ymaxf - yminf) / 2 else ymaxf))) := by
  refine ⟨g.xylim.1.getD (npMin g.xdata),
          g.xylim.2.1.getD (max (npMax g.xdata) (g.xylim.1.getD (npMin g.xdata) + minmini)),
          g.xylim.2.2.1.getD (npMin g.ydata),
          g.xylim.2.2.2.getD
            (max (npMax g.ydata) (g.xylim.2.2.1.getD (npMin g.ydata) + minmini)),
          ?_, ?_, ?_, ?_, ?_, ?_, ?_, ?_, ?_⟩
  · intro h
    rw [h, Option.getD_none]
  · intro h
    cases hc : g.xylim.1 with
    | none => exact absurd hc h
    | some a => rfl
  · intro h
    rw [h, Option.getD_none]
    norm_num [minmini]
  · intro h
    cases hc : g.xylim.2.1 with
    | none => exact absurd hc h
    | some a => rfl
  · intro h
    rw [h, Option.getD_none]
  · intro h
    cases hc : g.xylim.2.2.1 with
    | none => exact absurd hc h
    | some a => rfl
  · intro h
    rw [h, Option.getD_none]
    norm_num [minmini]
  · intro h
    cases hc : g.xylim.2.2.2 with
    | none => exact absurd hc h
    | some a => rfl
  · unfold Graph.pre_update
    rw [pre_update_lims_eq g hv hx hy]
    simp only [Option.map_some', minmini, mul_one_div]

/-- Witness for C2 on the concrete graph `gW` (`x = [1, 3]`, `y = [2, 5]`,
`xylim = (0, None, 0, None)`, `axmargin = (1.1, 1.1)`): the auto-computed
upper limits are `3` and `5`, margin-expanded to `63/20` and `21/4`, while
the fixed lower limits stay `0`. -/
theorem pre_update_autoscale_witness :
    gW.pre_update = some (gW.set_xylim (some 0, some (63/20), some 0, some (21/4))) := by
  obtain ⟨xm, xM, ym, yM, -, c2, c3, -, -, c6, c7, -, heq⟩ :=
    pre_update_autoscale gW rfl (by decide) (by decide)
  have hnpx : npMax gW.xdata = 3 := by
    show npMax [1, 3] = 3
    unfold npMax
    simp only [List.headD_cons, List.foldl_cons, List.foldl_nil]
    rw [max_self, max_eq_right (by norm_num : (1 : ℚ) ≤ 3)]
  have hnpy : npMax gW.ydata = 5 := by
    show npMax [2, 5] = 5
    unfold npMax
    simp only [List.headD_cons, List.foldl_cons, List.foldl_nil]
    rw [max_self, max_eq_right (by norm_num : (2 : ℚ) ≤ 5)]
  have hxm : xm = 0 := Option.some.inj ((c2 (by decide)).trans rfl)
  have hym : ym = 0 := Option.some.inj ((c6 (by decide)).trans rfl)
  have hxM : xM = 3 := by
    rw [c3 rfl, hxm, hnpx, max_eq_left (by norm_num : (0 : ℚ) + 1 / 100 ≤ 3)]
  have hyM : yM = 5 := by
    rw [c7 rfl, hym, hnpy, max_eq_left (by norm_num : (0 : ℚ) + 1 / 100 ≤ 5)]
  rw [hxm, hxM, hym, hyM] at heq
  rw [heq]
  norm_num [gW]
  rw [if_neg (show ¬(some (0 : ℚ) = none) by simp),
    if_neg (show ¬(some (0 : ℚ) = none) by simp)]

/-- C6: every fixed (non-`None`) entry of the configured `xylim` is passed to
`set_xylim` by `_pre_update` exactly as configured; the min/max clipping and
the `axmargin` expansion only apply to the `None` (auto) sides. -/
theorem pre_update_fixed_limits_passthrough (g : Graph) (hv : g.visible = true)
    (hx : g.xdata ≠ []) (hy : g.ydata ≠ []) :
    ∃ L : ℚ × ℚ × ℚ × ℚ,
      g.pre_update_lims = some L ∧
      g.pre_update = some (g.set_xylim (some L.1, some L.2.1, some L.2.2.1, some L.2.2.2)) ∧
      (∀ a, g.xylim.1 = some a → L.1 = a) ∧
      (∀ a, g.xylim.2.1 = some a → L.2.1 = a) ∧
      (∀ a, g.xylim.2.2.1 = some a → L.2.2.1 = a) ∧
      (∀ a, g.xylim.2.2.2 = some a → L.2.2.2 = a) := by
  refine ⟨_, pre_update_lims_eq g hv hx hy, ?_, ?_, ?_, ?_, ?_⟩
  · unfold Graph.pre_update
    rw [pre_update_lims_eq g hv hx hy]
    rfl
  · intro a ha
    simp [ha]
  · intro a ha
    simp [ha]
  · intro a ha
    simp [ha]
  · intro a ha
    simp [ha]

/-- Witness for C6: on a concrete visible graph whose four limits are all
fixed to `(2, 7, 3, 8)`, `_pre_update` passes exactly `(2, 7, 3, 8)` on. -/
theorem pre_update_fixed_limits_passthrough_witness :
    gF.pre_update_lims = some (2, 7, 3, 8) := by
  obtain ⟨⟨a, b, c, d⟩, hL, -, c1, c2, c3, c4⟩ :=
    pre_update_fixed_limits_passthrough gF rfl (by decide) (by decide)
  have h1 : a = 2 := c1 2 rfl
  have h2 : b = 7 := c2 7 rfl
  have h3 : c = 3 := c3 3 rfl
  have h4 : d = 8 := c4 8 rfl
  rw [h1, h2, h3, h4] at hL
  exact hL
